import Mathlib

/-!
Verification of the Data_Nexa AI insight pipeline
(`backend/app/core/ai_engine`): a shallow embedding of the response
parser, insight categorizer, code generator, anonymizer, cache manager,
Groq client retry policy and the orchestrator's rule-based fallback,
together with proofs of the specified properties.

Python strings are modelled as Lean `String`, with character-level
operations implemented over `String.data` so that every definition is
executable and kernel-reducible.  Python floats that only ever hold
percentage/score values are modelled as `ℚ`.  Optional attributes that
the source probes with `hasattr` are modelled as `Option` fields.
-/

namespace DataNexa

/-! ### String primitives (models of the Python string operations) -/

namespace Str

/-- Model of Python `str.lower()` (ASCII). -/
def lower (s : String) : String := ⟨s.data.map Char.toLower⟩

/-- Model of Python `str.upper()` (ASCII). -/
def upper (s : String) : String := ⟨s.data.map Char.toUpper⟩

/-- Strip leading and trailing whitespace from a character list. -/
def trimChars (l : List Char) : List Char :=
  ((l.dropWhile Char.isWhitespace).reverse.dropWhile Char.isWhitespace).reverse

/-- Model of Python `str.strip()`. -/
def trim (s : String) : String := ⟨trimChars s.data⟩

/-- Model of Python `len` on strings (code points). -/
def len (s : String) : Nat := s.data.length

/-- Does `needle` occur as a contiguous sublist of `hay`? -/
def isSubChars (needle : List Char) : List Char → Bool
  | [] => needle.isEmpty
  | c :: rest => needle.isPrefixOf (c :: rest) || isSubChars needle rest

/-- Model of the Python `in` operator on strings: `needle in hay`. -/
def containsStr (hay needle : String) : Bool := isSubChars needle.data hay.data

/-- First `n` characters, model of Python slicing `s[:n]`. -/
def take (s : String) (n : Nat) : String := ⟨s.data.take n⟩

/-- All but the first `n` characters, model of Python slicing `s[n:]`. -/
def drop (s : String) (n : Nat) : String := ⟨s.data.drop n⟩

/-- Split a character list at every occurrence of `sep`,
model of Python `str.split(sep)` for a one-character separator. -/
def splitOnChar (sep : Char) : List Char → List (List Char)
  | [] => [[]]
  | c :: rest =>
    if c = sep then [] :: splitOnChar sep rest
    else
      match splitOnChar sep rest with
      | [] => [[c]]
      | h :: t => (c :: h) :: t

/-- Split at the first occurrence of `sep`: model of Python
`s.split(sep, 1)` when `sep` occurs in `s`; the separator is dropped. -/
def splitFirst (s : String) (sep : Char) : String × String :=
  let p := s.data.span (· ≠ sep)
  (⟨p.1⟩, ⟨p.2.drop 1⟩)

end Str

/-! ### Numeric primitives -/

/-- Decimal digit as a character. -/
def digitChar (n : Nat) : Char := Char.ofNat (48 + n)

/-- Decimal digits of `n` (most significant first), fuelled recursion. -/
def natDigitsAux : Nat → Nat → List Char
  | 0, _ => []
  | fuel + 1, n =>
    if n < 10 then [digitChar n]
    else natDigitsAux fuel (n / 10) ++ [digitChar (n % 10)]

/-- Decimal rendering of a natural number. -/
def natToStr (n : Nat) : String := ⟨natDigitsAux (n + 1) n⟩

/-- Round a rational to the nearest integer, ties to even
(model of Python's rounding of the values at issue). -/
def roundHalfEven (q : ℚ) : ℤ :=
  let f := ⌊q⌋
  let r := q - (f : ℚ)
  if r < 1 / 2 then f
  else if 1 / 2 < r then f + 1
  else if f % 2 = 0 then f else f + 1

/-- Model of Python `round(x, 2)`. -/
def round2 (q : ℚ) : ℚ := (roundHalfEven (q * 100) : ℚ) / 100

/-- Model of the Python format specifier `{:.1f}` (one decimal place);
also used to render the integral scores that the source passes through
`str` inside f-strings. -/
def fmtOneDecimal (q : ℚ) : String :=
  let n := roundHalfEven (q * 10)
  (if n < 0 then "-" else "") ++ natToStr (n.natAbs / 10) ++ "." ++ natToStr (n.natAbs % 10)

/-! ### Data model (`models.py`, §3 of the spec)

`ColumnProfile.statistics` is omitted: none of the verified operations
(fallback generation, categorization, code generation) read it.
`outliers` is modelled as the optional `percentage` entry of the
optional `outliers` mapping. -/

structure ColumnProfile where
  column_name : String
  data_type : String
  semantic_type : String
  null_percentage : ℚ
  outliers : Option ℚ
deriving DecidableEq

structure QualityMetrics where
  duplicate_percentage : ℚ
deriving DecidableEq

structure ProfileResult where
  row_count : Nat
  column_count : Nat
  quality_score : ℚ
  column_profiles : List ColumnProfile
  quality_metrics : Option QualityMetrics
deriving DecidableEq

/-- `response_parser.RawInsight`. -/
structure RawInsight where
  severity : String
  description : String
  recommendation : String
deriving DecidableEq

/-- `models.CategorizedInsight`.  The categorizer's own dataclass lacks
`code_suggestion`; the orchestrator adds that attribute dynamically, so
it is modelled here as an `Option` field initialised to `none`. -/
structure CategorizedInsight where
  severity : String
  type : String
  description : String
  recommendation : String
  priority : Nat
  affected_columns : List String
  impact : String
  code_suggestion : Option String
deriving DecidableEq

/-! ### Response parser (`response_parser.py`) -/

namespace ResponseParser

/-- Model of `re.match(r"(CRITICAL|WARNING|INFO):\s*(.+)", s, re.IGNORECASE)`
followed by `group(1).lower()` / `group(2).strip()`.  The anchored match
succeeds exactly when `s` starts with one of the three keywords plus a
colon (case-insensitively) and at least one character follows; the
captured description, after Python's outer `.strip()`, is the stripped
remainder. -/
def matchSeverity (s : String) : Option (String × String) :=
  if Str.lower (Str.take s 9) = "critical:" then
    if Str.drop s 9 = "" then none else some ("critical", Str.trim (Str.drop s 9))
  else if Str.lower (Str.take s 8) = "warning:" then
    if Str.drop s 8 = "" then none else some ("warning", Str.trim (Str.drop s 8))
  else if Str.lower (Str.take s 5) = "info:" then
    if Str.drop s 5 = "" then none else some ("info", Str.trim (Str.drop s 5))
  else none

/-- Model of `re.match(r"RECOMMENDATION:\s*(.+)", rec_part, re.IGNORECASE)`:
on success the recommendation is the stripped remainder, otherwise the
whole (already stripped) part is used. -/
def extractRecommendation (recPart : String) : String :=
  if recPart = "" then ""
  else if Str.lower (Str.take recPart 15) = "recommendation:" then
    if Str.drop recPart 15 = "" then recPart else Str.trim (Str.drop recPart 15)
  else recPart

/-- `ResponseParser._parse_line`. -/
def parseLine (line : String) : Option RawInsight :=
  if Str.containsStr line "|" then
    match matchSeverity (Str.trim (Str.splitFirst line '|').1) with
    | none => none
    | some sd =>
      some { severity := sd.1, description := sd.2,
             recommendation := extractRecommendation (Str.trim (Str.splitFirst line '|').2) }
  else
    match matchSeverity line with
    | none => none
    | some sd => some { severity := sd.1, description := sd.2, recommendation := "" }

/-- `ResponseParser.parse`: strip, split into lines, skip blank lines and
lines without a colon, parse the rest; failures yield no insight. -/
def parse (response : String) : List RawInsight :=
  (Str.splitOnChar '\n' (Str.trim response).data).filterMap fun lchars =>
    let line := Str.trim ⟨lchars⟩
    if line = "" then none
    else if Str.containsStr line ":" then parseLine line
    else none

/-- `ResponseParser.validate_response`. -/
def validate_response (response : String) : Bool :=
  if response = "" || Str.len (Str.trim response) < 10 then false
  else
    ["CRITICAL:", "WARNING:", "INFO:"].any fun keyword =>
      Str.containsStr (Str.upper response) keyword

end ResponseParser

/-! ### Insight categorizer (`insight_categorizer.py`) -/

namespace InsightCategorizer

/-- `InsightCategorizer._detect_type`: first matching keyword group wins. -/
def detectType (description : String) : String :=
  let d := Str.lower description
  if ["missing", "null", "empty", "blank"].any (Str.containsStr d) then
    "missing_data"
  else if ["duplicate", "repeated"].any (Str.containsStr d) then
    "duplicates"
  else if ["outlier", "anomal"].any (Str.containsStr d) then
    "outliers"
  else if ["type", "mismatch", "inconsistent type"].any (Str.containsStr d) then
    "data_type_mismatch"
  else if ["pattern", "format", "structure"].any (Str.containsStr d) then
    "pattern_violation"
  else if ["correlation", "multicollinearity", "related"].any (Str.containsStr d) then
    "quality_issue"
  else if ["cardinality", "unique", "distinct"].any (Str.containsStr d) then
    "quality_issue"
  else
    "quality_issue"

/-- Base priority from severity, default 3 for an unrecognized severity. -/
def basePriority (severity : String) : Nat :=
  if severity = "critical" then 1
  else if severity = "warning" then 2
  else if severity = "info" then 5
  else 3

/-- `InsightCategorizer._calculate_priority`. -/
def calculatePriority (severity insightType goalType : String) : Nat :=
  let base := basePriority severity
  if goalType = "ml_preparation" then
    if insightType ∈ ["missing_data", "duplicates", "outliers"] then max 1 (base - 1) else base
  else if goalType = "business_reporting" then
    if insightType ∈ ["pattern_violation", "data_type_mismatch"] then max 1 (base - 1) else base
  else if goalType = "anomaly_detection" then
    if insightType = "outliers" then max 1 (base - 1) else base
  else base

/-- `InsightCategorizer._determine_impact`. -/
def determineImpact (severity insightType : String) : String :=
  if severity = "critical" then "High"
  else if severity = "warning" then
    if insightType ∈ ["missing_data", "duplicates"] then "High" else "Medium"
  else "Low"

/-- `InsightCategorizer._extract_columns`: a profile column is affected
when its name appears quoted in the description, or space-delimited in
the space-padded description; profile order is preserved. -/
def extractColumns (description : String) (profile : ProfileResult) : List String :=
  profile.column_profiles.filterMap fun p =>
    let c := p.column_name
    if Str.containsStr description ("'" ++ c ++ "'")
        || Str.containsStr description ("\"" ++ c ++ "\"") then some c
    else if Str.containsStr (" " ++ description ++ " ") (" " ++ c ++ " ") then some c
    else none

/-- Categorize one raw insight (the loop body of `categorize`). -/
def categorizeOne (profile : ProfileResult) (goalType : String) (raw : RawInsight) :
    CategorizedInsight :=
  let insightType := detectType raw.description
  { severity := raw.severity
    type := insightType
    description := raw.description
    recommendation := raw.recommendation
    priority := calculatePriority raw.severity insightType goalType
    affected_columns := extractColumns raw.description profile
    impact := determineImpact raw.severity insightType
    code_suggestion := none }

/-- The sort key `lambda x: (x.priority, x.severity)` compared with
Python's ascending lexicographic tuple order. -/
def sortKeyLE (a b : CategorizedInsight) : Bool :=
  decide (a.priority < b.priority ∨ (a.priority = b.priority ∧ a.severity ≤ b.severity))

/-- `InsightCategorizer.categorize`: map, then stable sort by
`(priority, severity)`. -/
def categorize (rawInsights : List RawInsight) (profile : ProfileResult)
    (goalType : String) : List CategorizedInsight :=
  (rawInsights.map (categorizeOne profile goalType)).mergeSort sortKeyLE

end InsightCategorizer

/-! ### Code generator (`code_generator.py`)

The Python snippet templates are reproduced verbatim (f-string slots
become string concatenation). -/

namespace CodeGenerator

def pyMissingCol (col : String) : String :=
  "# Handle missing values in '" ++ col ++ "'\nimport pandas as pd\n\n# Option 1: Remove rows with missing values\ndf = df.dropna(subset=['" ++ col ++ "'])\n\n# Option 2: Fill with median (for numeric columns)\ndf['" ++ col ++ "'].fillna(df['" ++ col ++ "'].median(), inplace=True)\n\n# Option 3: Fill with mode (for categorical columns)\ndf['" ++ col ++ "'].fillna(df['" ++ col ++ "'].mode()[0], inplace=True)\n\n# Option 4: Forward fill\ndf['" ++ col ++ "'].fillna(method='ffill', inplace=True)"

def pyMissingGeneric : String :=
  "# Handle missing values\nimport pandas as pd\n\n# Remove all rows with any missing values\ndf = df.dropna()\n\n# Or remove rows where all values are missing\ndf = df.dropna(how='all')\n\n# Fill all numeric columns with median\nnumeric_cols = df.select_dtypes(include=['number']).columns\ndf[numeric_cols] = df[numeric_cols].fillna(df[numeric_cols].median())"

def pyDuplicates : String :=
  "# Remove duplicate rows\nimport pandas as pd\n\n# Remove all duplicate rows\ndf = df.drop_duplicates()\n\n# Keep first occurrence\ndf = df.drop_duplicates(keep='first')\n\n# Keep last occurrence\ndf = df.drop_duplicates(keep='last')\n\n# Remove duplicates based on specific columns\n# df = df.drop_duplicates(subset=['column1', 'column2'])"

def pyOutliersCol (col : String) : String :=
  "# Remove outliers from '" ++ col ++ "' using IQR method\nimport pandas as pd\nimport numpy as np\n\n# Calculate IQR\nQ1 = df['" ++ col ++ "'].quantile(0.25)\nQ3 = df['" ++ col ++ "'].quantile(0.75)\nIQR = Q3 - Q1\n\n# Define outlier bounds\nlower_bound = Q1 - 1.5 * IQR\nupper_bound = Q3 + 1.5 * IQR\n\n# Remove outliers\ndf = df[(df['" ++ col ++ "'] >= lower_bound) & (df['" ++ col ++ "'] <= upper_bound)]\n\n# Or cap outliers instead of removing\ndf['" ++ col ++ "'] = df['" ++ col ++ "'].clip(lower=lower_bound, upper=upper_bound)"

def pyOutliersGeneric : String :=
  "# Remove outliers using Z-score method\nimport pandas as pd\nimport numpy as np\n\n# Calculate Z-scores for numeric columns\nnumeric_cols = df.select_dtypes(include=['number']).columns\nz_scores = np.abs((df[numeric_cols] - df[numeric_cols].mean()) / df[numeric_cols].std())\n\n# Remove rows where any column has |z-score| > 3\ndf = df[(z_scores < 3).all(axis=1)]"

def pyTypeCol (col : String) : String :=
  "# Convert data type for '" ++ col ++ "'\nimport pandas as pd\n\n# Convert to numeric (coerce errors to NaN)\ndf['" ++ col ++ "'] = pd.to_numeric(df['" ++ col ++ "'], errors='coerce')\n\n# Convert to datetime\ndf['" ++ col ++ "'] = pd.to_datetime(df['" ++ col ++ "'], errors='coerce')\n\n# Convert to string\ndf['" ++ col ++ "'] = df['" ++ col ++ "'].astype(str)\n\n# Convert to category (for categorical data)\ndf['" ++ col ++ "'] = df['" ++ col ++ "'].astype('category')"

def pyTypeGeneric : String :=
  "# Fix data type mismatches\nimport pandas as pd\n\n# Infer and convert data types automatically\ndf = df.infer_objects()\n\n# Convert specific columns\n# df['numeric_col'] = pd.to_numeric(df['numeric_col'], errors='coerce')\n# df['date_col'] = pd.to_datetime(df['date_col'], errors='coerce')"

def pyPatternCol (col : String) : String :=
  "# Standardize format for '" ++ col ++ "'\nimport pandas as pd\nimport re\n\n# Remove special characters\ndf['" ++ col ++ "'] = df['" ++ col ++ "'].str.replace(r'[^a-zA-Z0-9\\s]', '', regex=True)\n\n# Convert to lowercase\ndf['" ++ col ++ "'] = df['" ++ col ++ "'].str.lower()\n\n# Trim whitespace\ndf['" ++ col ++ "'] = df['" ++ col ++ "'].str.strip()\n\n# Apply custom pattern (example: phone numbers)\n# df['" ++ col ++ "'] = df['" ++ col ++ "'].str.replace(r'(\\d\x7b3\x7d)(\\d\x7b3\x7d)(\\d\x7b4\x7d)', r'\\1-\\2-\\3', regex=True)"

def pyPatternGeneric : String :=
  "# Standardize text formatting\nimport pandas as pd\n\n# Standardize all text columns\ntext_cols = df.select_dtypes(include=['object']).columns\nfor col in text_cols:\n    df[col] = df[col].str.strip().str.lower()"

def pyCorrelation (col1 col2 : String) : String :=
  "# Handle high correlation between '" ++ col1 ++ "' and '" ++ col2 ++ "'\nimport pandas as pd\n\n# Option 1: Remove one of the correlated features\ndf = df.drop(columns=['" ++ col2 ++ "'])\n\n# Option 2: Create a combined feature\ndf['" ++ col1 ++ "_" ++ col2 ++ "_combined'] = df['" ++ col1 ++ "'] + df['" ++ col2 ++ "']\ndf = df.drop(columns=['" ++ col1 ++ "', '" ++ col2 ++ "'])\n\n# Option 3: Use PCA to reduce dimensionality\nfrom sklearn.decomposition import PCA\npca = PCA(n_components=1)\ndf['" ++ col1 ++ "_" ++ col2 ++ "_pca'] = pca.fit_transform(df[['" ++ col1 ++ "', '" ++ col2 ++ "']])\ndf = df.drop(columns=['" ++ col1 ++ "', '" ++ col2 ++ "'])"

def pyCardinality (col : String) : String :=
  "# Reduce high cardinality in '" ++ col ++ "'\nimport pandas as pd\n\n# Option 1: Keep only top N categories\ntop_n = 10\ntop_categories = df['" ++ col ++ "'].value_counts().head(top_n).index\ndf['" ++ col ++ "'] = df['" ++ col ++ "'].apply(lambda x: x if x in top_categories else 'Other')\n\n# Option 2: Group rare categories\nmin_frequency = 0.01  # 1%\nvalue_counts = df['" ++ col ++ "'].value_counts(normalize=True)\nrare_categories = value_counts[value_counts < min_frequency].index\ndf['" ++ col ++ "'] = df['" ++ col ++ "'].apply(lambda x: 'Other' if x in rare_categories else x)"

/-- `CodeGenerator._generate_python`. -/
def generatePython (insight : CategorizedInsight) : Option String :=
  if insight.type = "missing_data" then
    match insight.affected_columns with
    | [] => some pyMissingGeneric
    | col :: _ => some (pyMissingCol col)
  else if insight.type = "duplicates" then some pyDuplicates
  else if insight.type = "outliers" then
    match insight.affected_columns with
    | [] => some pyOutliersGeneric
    | col :: _ => some (pyOutliersCol col)
  else if insight.type = "data_type_mismatch" then
    match insight.affected_columns with
    | [] => some pyTypeGeneric
    | col :: _ => some (pyTypeCol col)
  else if insight.type = "pattern_violation" then
    match insight.affected_columns with
    | [] => some pyPatternGeneric
    | col :: _ => some (pyPatternCol col)
  else if insight.type = "quality_issue" then
    if Str.containsStr (Str.lower insight.description) "correlation" then
      match insight.affected_columns with
      | col1 :: col2 :: _ => some (pyCorrelation col1 col2)
      | _ => none
    else if Str.containsStr (Str.lower insight.description) "cardinality" then
      match insight.affected_columns with
      | [] => none
      | col :: _ => some (pyCardinality col)
    else none
  else none

def sqlDuplicates : String :=
  "-- Remove duplicate rows (PostgreSQL)\nDELETE FROM table_name\nWHERE ctid NOT IN (\n    SELECT MIN(ctid)\n    FROM table_name\n    GROUP BY column1, column2, column3  -- specify all columns\n);\n\n-- Or using ROW_NUMBER (works in most databases)\nWITH ranked AS (\n    SELECT *,\n           ROW_NUMBER() OVER (PARTITION BY column1, column2 ORDER BY id) AS rn\n    FROM table_name\n)\nDELETE FROM table_name\nWHERE id IN (SELECT id FROM ranked WHERE rn > 1);"

def sqlMissingCol (col : String) : String :=
  "-- Handle NULL values in '" ++ col ++ "'\n\n-- Option 1: Remove rows with NULL\nDELETE FROM table_name\nWHERE " ++ col ++ " IS NULL;\n\n-- Option 2: Update with default value\nUPDATE table_name\nSET " ++ col ++ " = 0  -- or appropriate default\nWHERE " ++ col ++ " IS NULL;\n\n-- Option 3: Update with average (for numeric columns)\nUPDATE table_name\nSET " ++ col ++ " = (SELECT AVG(" ++ col ++ ") FROM table_name WHERE " ++ col ++ " IS NOT NULL)\nWHERE " ++ col ++ " IS NULL;"

def sqlMissingGeneric : String :=
  "-- Handle NULL values\n\n-- Remove rows where any key column is NULL\nDELETE FROM table_name\nWHERE column1 IS NULL\n   OR column2 IS NULL\n   OR column3 IS NULL;\n\n-- Update NULLs with defaults\nUPDATE table_name\nSET column1 = COALESCE(column1, 'default_value');"

def sqlOutliersCol (col : String) : String :=
  "-- Remove outliers from '" ++ col ++ "' using IQR method\n\n-- Calculate quartiles\nWITH quartiles AS (\n    SELECT\n        PERCENTILE_CONT(0.25) WITHIN GROUP (ORDER BY " ++ col ++ ") AS q1,\n        PERCENTILE_CONT(0.75) WITHIN GROUP (ORDER BY " ++ col ++ ") AS q3\n    FROM table_name\n),\nbounds AS (\n    SELECT\n        q1 - 1.5 * (q3 - q1) AS lower_bound,\n        q3 + 1.5 * (q3 - q1) AS upper_bound\n    FROM quartiles\n)\n-- Remove outliers\nDELETE FROM table_name\nWHERE " ++ col ++ " < (SELECT lower_bound FROM bounds)\n   OR " ++ col ++ " > (SELECT upper_bound FROM bounds);"

/-- `CodeGenerator._generate_sql`: covers duplicates, missing data and
column-specific outliers only; everything else yields no snippet. -/
def generateSQL (insight : CategorizedInsight) : Option String :=
  if insight.type = "duplicates" then some sqlDuplicates
  else if insight.type = "missing_data" then
    match insight.affected_columns with
    | [] => some sqlMissingGeneric
    | col :: _ => some (sqlMissingCol col)
  else if insight.type = "outliers" then
    match insight.affected_columns with
    | [] => none
    | col :: _ => some (sqlOutliersCol col)
  else none

def rMissingCol (col : String) : String :=
  "# Handle missing values in '" ++ col ++ "'\nlibrary(dplyr)\n\n# Option 1: Remove rows with missing values\ndf <- df %>% filter(!is.na(" ++ col ++ "))\n\n# Option 2: Fill with median\ndf <- df %>%\n  mutate(" ++ col ++ " = ifelse(is.na(" ++ col ++ "), median(" ++ col ++ ", na.rm = TRUE), " ++ col ++ "))\n\n# Option 3: Fill with mode\nmode_value <- names(sort(table(df$" ++ col ++ "), decreasing = TRUE))[1]\ndf$" ++ col ++ "[is.na(df$" ++ col ++ ")] <- mode_value"

def rDuplicates : String :=
  "# Remove duplicate rows\nlibrary(dplyr)\n\n# Remove all duplicates\ndf <- df %>% distinct()\n\n# Remove duplicates based on specific columns\n# df <- df %>% distinct(column1, column2, .keep_all = TRUE)"

def rOutliersCol (col : String) : String :=
  "# Remove outliers from '" ++ col ++ "' using IQR method\nlibrary(dplyr)\n\n# Calculate IQR\nQ1 <- quantile(df$" ++ col ++ ", 0.25, na.rm = TRUE)\nQ3 <- quantile(df$" ++ col ++ ", 0.75, na.rm = TRUE)\nIQR <- Q3 - Q1\n\n# Define bounds\nlower_bound <- Q1 - 1.5 * IQR\nupper_bound <- Q3 + 1.5 * IQR\n\n# Remove outliers\ndf <- df %>%\n  filter(" ++ col ++ " >= lower_bound & " ++ col ++ " <= upper_bound)"

/-- `CodeGenerator._generate_r`: missing data and outliers only have a
column-specific variant; with no affected columns the function falls
through and yields no snippet. -/
def generateR (insight : CategorizedInsight) : Option String :=
  if insight.type = "missing_data" then
    match insight.affected_columns with
    | [] => none
    | col :: _ => some (rMissingCol col)
  else if insight.type = "duplicates" then some rDuplicates
  else if insight.type = "outliers" then
    match insight.affected_columns with
    | [] => none
    | col :: _ => some (rOutliersCol col)
  else none

/-- `CodeGenerator.generate`: dispatch on the target language; an
unsupported language yields no snippet. -/
def generate (insight : CategorizedInsight) (language : String) : Option String :=
  if language = "python" then generatePython insight
  else if language = "sql" then generateSQL insight
  else if language = "r" then generateR insight
  else none

end CodeGenerator

/-! ### Anonymizer (`anonymizer.py`, single-value utility) -/

namespace DataAnonymizer

/-- `DataAnonymizer.anonymize_value`: redact one value according to its
semantic type.  Email keeps the domain and the first two characters of
the username; phone keeps the last four digits; identifiers and
everything else become fixed masks. -/
def anonymize_value (value : String) (data_type : String) : String :=
  if data_type = "email" then
    if Str.containsStr value "@" then
      let parts := Str.splitOnChar '@' value.data
      ⟨(parts.headD []).take 2⟩ ++ "***@" ++ ⟨(parts.tail.headD [])⟩
    else "***@domain.com"
  else if data_type = "phone" then
    let digits := value.data.filter Char.isDigit
    if 4 ≤ digits.length then
      "***-***-" ++ ⟨digits.drop (digits.length - 4)⟩
    else "***-***-****"
  else if data_type = "identifier" then "ID_***"
  else "***"

end DataAnonymizer

/-! ### Cache manager (`cache_manager.py`, hit-rate computation) -/

namespace CacheManager

/-- `CacheManager._calculate_hit_rate`: percentage of hits among all
lookups, rounded to two decimal places, `0.0` when there were none. -/
def calculate_hit_rate (hits misses : Nat) : ℚ :=
  let total := hits + misses
  if total = 0 then 0
  else round2 ((hits : ℚ) / (total : ℚ) * 100)

end CacheManager

/-! ### Groq client retry policy (`groq_client.py`)

The `generate` coroutine is wrapped in
`@retry(stop=stop_after_attempt(3), wait=wait_exponential(multiplier=1, min=2, max=10),
retry=retry_if_exception_type((Exception,)))`.
Inside, any exception whose lowercased message contains "rate limit" or
"timeout" is re-raised as `GroqAPIException("Retryable error: ...")` and
every other exception as `GroqAPIException("API call failed: ...")`.
Both are `Exception`s, so the tenacity predicate retries either kind. -/

namespace GroqClient

/-- One underlying Groq SDK call either returns text or raises with a
message. -/
inductive ApiOutcome where
  | success (text : String)
  | failure (msg : String)
deriving DecidableEq

/-- The classification performed in the `except` block of `generate`. -/
def isRetryableMessage (msg : String) : Bool :=
  Str.containsStr (Str.lower msg) "rate limit" || Str.containsStr (Str.lower msg) "timeout"

/-- The `GroqAPIException` message raised for an underlying failure. -/
def wrapError (msg : String) : String :=
  if isRetryableMessage msg then "Retryable error: " ++ msg
  else "API call failed: " ++ msg

/-- The tenacity retry predicate `retry_if_exception_type((Exception,))`:
every `GroqAPIException` is an `Exception`, so it holds for every
raised error. -/
def shouldRetry (_msg : String) : Bool := true

/-- `wait_exponential(multiplier=1, min=2, max=10)`: the wait in seconds
after the `attempt`-th failed attempt. -/
def waitSeconds (attempt : Nat) : Nat := max 2 (min (2 ^ attempt) 10)

/-- Result of running `generate` under the retry decorator: final
outcome, number of attempts actually made, and the backoff waits slept
between attempts. -/
structure RetryResult where
  result : Except String String
  attempts : Nat
  waits : List Nat

/-- The tenacity retry loop: `outcome n` is what the `n`-th attempt
(1-based) of the wrapped body does.  `fuel` is the number of attempts
still allowed by `stop_after_attempt`; a final failure surfaces the
last `GroqAPIException` message (tenacity wraps it in a `RetryError`,
which carries the same last attempt). -/
def runRetry (outcome : Nat → ApiOutcome) : Nat → Nat → RetryResult
  | 0, attempt => { result := .error "", attempts := attempt - 1, waits := [] }
  | fuel + 1, attempt =>
    match outcome attempt with
    | .success t => { result := .ok t, attempts := attempt, waits := [] }
    | .failure msg =>
      let e := wrapError msg
      if fuel = 0 || !shouldRetry e then
        { result := .error e, attempts := attempt, waits := [] }
      else
        let rest := runRetry outcome fuel (attempt + 1)
        { rest with waits := waitSeconds attempt :: rest.waits }

/-- `GroqClient.generate` under its decorator: up to 3 attempts,
starting at attempt 1. -/
def generate (outcome : Nat → ApiOutcome) : RetryResult := runRetry outcome 3 1

end GroqClient

/-! ### Orchestrator fallback (`ai_service.py`, `_generate_fallback_insights`) -/

namespace AIService

/-- The critical missing-data insight built for a column with more than
50% nulls. -/
def missingDataInsight (c : ColumnProfile) : CategorizedInsight :=
  { severity := "critical"
    type := "missing_data"
    description := "Column '" ++ c.column_name ++ "' has "
      ++ fmtOneDecimal c.null_percentage ++ "% missing values"
    recommendation := "Consider dropping this column or investigating the cause of missing data"
    priority := 1
    affected_columns := [c.column_name]
    impact := "High"
    code_suggestion := none }

/-- The warning built when the duplicate percentage exceeds 5. -/
def duplicatesInsight (dupPct : ℚ) : CategorizedInsight :=
  { severity := "warning"
    type := "duplicates"
    description := "Dataset contains " ++ fmtOneDecimal dupPct ++ "% duplicate rows"
    recommendation := "Remove duplicate rows to improve data quality"
    priority := 2
    affected_columns := []
    impact := "High"
    code_suggestion := none }

/-- The warning built for a column with more than 10% outliers. -/
def outliersInsight (c : ColumnProfile) (outlierPct : ℚ) : CategorizedInsight :=
  { severity := "warning"
    type := "outliers"
    description := "Column '" ++ c.column_name ++ "' has "
      ++ fmtOneDecimal outlierPct ++ "% outliers"
    recommendation := "Review outliers to determine if they are errors or valid extreme values"
    priority := 2
    affected_columns := [c.column_name]
    impact := "Medium"
    code_suggestion := none }

/-- The info insight for a quality score of at least 85. -/
def goodQualityInsight (qualityScore : ℚ) : CategorizedInsight :=
  { severity := "info"
    type := "quality_issue"
    description := "Data quality is good (" ++ fmtOneDecimal qualityScore
      ++ "/100). The dataset is ready for analysis."
    recommendation := ""
    priority := 5
    affected_columns := []
    impact := "Low"
    code_suggestion := none }

/-- The warning for a quality score below 70. -/
def badQualityInsight (qualityScore : ℚ) : CategorizedInsight :=
  { severity := "warning"
    type := "quality_issue"
    description := "Data quality is below average (" ++ fmtOneDecimal qualityScore
      ++ "/100). Address the issues before analysis."
    recommendation := "Review and fix the critical and warning issues identified"
    priority := 2
    affected_columns := []
    impact := "High"
    code_suggestion := none }

/-- The final loop of `_generate_fallback_insights`: attach a Python
snippet to every insight that has a recommendation and critical or
warning severity; generation failures leave the field untouched. -/
def attachFallbackCode (i : CategorizedInsight) : CategorizedInsight :=
  if i.recommendation ≠ "" ∧ (i.severity = "critical" ∨ i.severity = "warning") then
    { i with code_suggestion := CodeGenerator.generate i "python" }
  else i

/-- `AIService._generate_fallback_insights`: deterministic rule-based
insights over the profile (the goal type is accepted but unused by the
source). -/
def generate_fallback_insights (p : ProfileResult) (_goalType : String) :
    List CategorizedInsight :=
  let missing := p.column_profiles.filterMap fun c =>
    if c.null_percentage > 50 then some (missingDataInsight c) else none
  let dups :=
    match p.quality_metrics with
    | some qm =>
      if qm.duplicate_percentage > 5 then [duplicatesInsight qm.duplicate_percentage] else []
    | none => []
  let outs := p.column_profiles.filterMap fun c =>
    match c.outliers with
    | some pct => if pct > 10 then some (outliersInsight c pct) else none
    | none => none
  let qual :=
    if 85 ≤ p.quality_score then [goodQualityInsight p.quality_score]
    else if p.quality_score < 70 then [badQualityInsight p.quality_score]
    else []
  (missing ++ dups ++ outs ++ qual).map attachFallbackCode

end AIService

/-! ### Spec-side predicates used by the claims -/

/-- A `CategorizedInsight` is well-typed in the sense of the data model
(§3): severity, type and impact come from their respective enumerations
and the priority lies in `[1, 5]`. -/
def WellTypedInsight (i : CategorizedInsight) : Prop :=
  (i.severity = "critical" ∨ i.severity = "warning" ∨ i.severity = "info")
  ∧ i.type ∈ ["missing_data", "duplicates", "outliers", "data_type_mismatch",
      "pattern_violation", "quality_issue"]
  ∧ (i.impact = "High" ∨ i.impact = "Medium" ∨ i.impact = "Low")
  ∧ 1 ≤ i.priority ∧ i.priority ≤ 5

instance (i : CategorizedInsight) : Decidable (WellTypedInsight i) := by
  unfold WellTypedInsight; infer_instance

/-- The severity/description/recommendation payload carried from a raw
insight into a categorized one. -/
def insightPayload (i : CategorizedInsight) : String × String × String :=
  (i.severity, i.description, i.recommendation)

/-- The payload of a raw insight. -/
def rawPayload (r : RawInsight) : String × String × String :=
  (r.severity, r.description, r.recommendation)

/-- The validity condition of `validate_response` as the claim words it:
the text is empty or whitespace-only, or its stripped length is under
10 characters, or none of the three severity keywords appear
case-insensitively. -/
def InvalidResponse (s : String) : Prop :=
  Str.trim s = "" ∨ Str.len (Str.trim s) < 10
    ∨ ∀ k ∈ (["CRITICAL:", "WARNING:", "INFO:"] : List String),
        ¬ Str.containsStr (Str.upper s) k = true

/-! ### Helper lemmas -/

theorem dropWhile_dropWhile (p : Char → Bool) (l : List Char) :
    (l.dropWhile p).dropWhile p = l.dropWhile p := by
  induction l with
  | nil => rfl
  | cons a l ih => by_cases h : p a <;> simp [List.dropWhile_cons, h, ih]

theorem dropWhile_head_false (p : Char → Bool) (l : List Char) {c : Char} {t : List Char}
    (h : l.dropWhile p = c :: t) : p c = false := by
  induction l with
  | nil => simp at h
  | cons a l ih =>
    rw [List.dropWhile_cons] at h
    by_cases ha : p a
    · rw [if_pos ha] at h; exact ih h
    · rw [if_neg ha] at h
      injection h with h1 _
      subst h1
      simpa using ha

theorem trimChars_idem (l : List Char) : Str.trimChars (Str.trimChars l) = Str.trimChars l := by
  unfold Str.trimChars
  have h1 : ((((l.dropWhile Char.isWhitespace).reverse.dropWhile
      Char.isWhitespace).reverse).dropWhile Char.isWhitespace)
      = ((l.dropWhile Char.isWhitespace).reverse.dropWhile Char.isWhitespace).reverse := by
    rcases hwr : ((l.dropWhile Char.isWhitespace).reverse.dropWhile
        Char.isWhitespace).reverse with _ | ⟨c, rest⟩
    · simp
    · have hsplit : (l.dropWhile Char.isWhitespace).reverse.takeWhile Char.isWhitespace
          ++ (l.dropWhile Char.isWhitespace).reverse.dropWhile Char.isWhitespace
          = (l.dropWhile Char.isWhitespace).reverse :=
        List.takeWhile_append_dropWhile Char.isWhitespace _
      have hy2 : l.dropWhile Char.isWhitespace
          = ((l.dropWhile Char.isWhitespace).reverse.dropWhile Char.isWhitespace).reverse
            ++ ((l.dropWhile Char.isWhitespace).reverse.takeWhile Char.isWhitespace).reverse := by
        conv_lhs => rw [← List.reverse_reverse (l.dropWhile Char.isWhitespace), ← hsplit]
        rw [List.reverse_append]
      rw [hwr] at hy2
      have hpc : Char.isWhitespace c = false :=
        dropWhile_head_false Char.isWhitespace l hy2
      rw [List.dropWhile_cons, hpc]
      simp
  rw [h1, List.reverse_reverse, dropWhile_dropWhile]

theorem trim_idem (s : String) : Str.trim (Str.trim s) = Str.trim s := by
  unfold Str.trim
  exact congrArg String.mk (trimChars_idem s.data)

theorem matchSeverity_spec (s : String) (sd : String × String)
    (h : ResponseParser.matchSeverity s = some sd) :
    (sd.1 = "critical" ∨ sd.1 = "warning" ∨ sd.1 = "info")
    ∧ sd.2 = Str.trim sd.2 := by
  unfold ResponseParser.matchSeverity at h
  split_ifs at h <;>
    first
    | exact Option.noConfusion h
    | (injection h with h'; subst h'; exact ⟨by simp, (trim_idem _).symm⟩)

theorem extractRecommendation_trim_fixed (x : String) :
    ResponseParser.extractRecommendation (Str.trim x)
      = Str.trim (ResponseParser.extractRecommendation (Str.trim x)) := by
  unfold ResponseParser.extractRecommendation
  split_ifs
  · rfl
  · exact (trim_idem _).symm
  · exact (trim_idem _).symm
  · exact (trim_idem _).symm

theorem basePriority_bounds (s : String) :
    1 ≤ InsightCategorizer.basePriority s ∧ InsightCategorizer.basePriority s ≤ 5 := by
  unfold InsightCategorizer.basePriority
  split_ifs <;> omega

theorem calculatePriority_cases (s t g : String) :
    InsightCategorizer.calculatePriority s t g = InsightCategorizer.basePriority s
    ∨ InsightCategorizer.calculatePriority s t g
        = max 1 (InsightCategorizer.basePriority s - 1) := by
  unfold InsightCategorizer.calculatePriority
  split_ifs <;> simp

theorem calculatePriority_bounds (s t g : String) :
    1 ≤ InsightCategorizer.calculatePriority s t g
    ∧ InsightCategorizer.calculatePriority s t g ≤ 5 := by
  have hb := basePriority_bounds s
  rcases calculatePriority_cases s t g with h | h <;> rw [h] <;> omega

theorem sortKeyLE_trans (a b c : CategorizedInsight)
    (hab : InsightCategorizer.sortKeyLE a b) (hbc : InsightCategorizer.sortKeyLE b c) :
    InsightCategorizer.sortKeyLE a c := by
  simp only [InsightCategorizer.sortKeyLE, decide_eq_true_eq] at *
  rcases hab with h1 | ⟨h1, h1'⟩ <;> rcases hbc with h2 | ⟨h2, h2'⟩
  · exact Or.inl (h1.trans h2)
  · exact Or.inl (h2 ▸ h1)
  · exact Or.inl (h1 ▸ h2)
  · exact Or.inr ⟨h1.trans h2, h1'.trans h2'⟩

theorem sortKeyLE_total (a b : CategorizedInsight) :
    InsightCategorizer.sortKeyLE a b || InsightCategorizer.sortKeyLE b a := by
  simp only [InsightCategorizer.sortKeyLE, Bool.or_eq_true, decide_eq_true_eq]
  rcases lt_trichotomy a.priority b.priority with h | h | h
  · exact Or.inl (Or.inl h)
  · rcases le_total a.severity b.severity with hs | hs
    · exact Or.inl (Or.inr ⟨h, hs⟩)
    · exact Or.inr (Or.inr ⟨h.symm, hs⟩)
  · exact Or.inr (Or.inl h)

theorem attachFallbackCode_fields (i : CategorizedInsight) :
    (AIService.attachFallbackCode i).severity = i.severity
    ∧ (AIService.attachFallbackCode i).type = i.type
    ∧ (AIService.attachFallbackCode i).description = i.description
    ∧ (AIService.attachFallbackCode i).recommendation = i.recommendation
    ∧ (AIService.attachFallbackCode i).priority = i.priority
    ∧ (AIService.attachFallbackCode i).affected_columns = i.affected_columns
    ∧ (AIService.attachFallbackCode i).impact = i.impact := by
  unfold AIService.attachFallbackCode
  split_ifs <;> simp

theorem attachFallbackCode_wellTyped (i : CategorizedInsight)
    (h : WellTypedInsight i) : WellTypedInsight (AIService.attachFallbackCode i) := by
  obtain ⟨h1, h2, h3, h4, h5, h6, h7⟩ := attachFallbackCode_fields i
  unfold WellTypedInsight at *
  rw [h1, h2, h5, h7]
  exact h

theorem roundHalfEven_nonneg {q : ℚ} (hq : 0 ≤ q) : 0 ≤ roundHalfEven q := by
  have hf : (0 : ℤ) ≤ ⌊q⌋ := Int.floor_nonneg.mpr hq
  simp only [roundHalfEven]
  split_ifs <;> omega

theorem roundHalfEven_le {q : ℚ} {n : ℤ} (hq : q ≤ (n : ℚ)) : roundHalfEven q ≤ n := by
  have hfn : ⌊q⌋ ≤ n := by
    have := Int.floor_mono hq
    simpa using this
  simp only [roundHalfEven]
  split_ifs with h1 h2 h3
  · exact hfn
  · rcases lt_or_eq_of_le hfn with hlt | heq
    · omega
    · exfalso
      have hcast : ((⌊q⌋ : ℤ) : ℚ) = (n : ℚ) := by exact_mod_cast heq
      have hle : q - (⌊q⌋ : ℚ) ≤ 0 := by rw [hcast]; linarith
      linarith
  · exact hfn
  · rcases lt_or_eq_of_le hfn with hlt | heq
    · omega
    · exfalso
      have hcast : ((⌊q⌋ : ℤ) : ℚ) = (n : ℚ) := by exact_mod_cast heq
      have hle : q - (⌊q⌋ : ℚ) ≤ 0 := by rw [hcast]; linarith
      linarith

theorem round2_bounds {q : ℚ} (h0 : 0 ≤ q) (h1 : q ≤ 100) :
    0 ≤ round2 q ∧ round2 q ≤ 100 := by
  unfold round2
  have hl : (0 : ℤ) ≤ roundHalfEven (q * 100) := roundHalfEven_nonneg (by positivity)
  have hu : roundHalfEven (q * 100) ≤ (10000 : ℤ) := by
    apply roundHalfEven_le
    push_cast
    nlinarith
  constructor
  · positivity
  · rw [div_le_iff₀ (by norm_num : (0:ℚ) < 100)]
    calc ((roundHalfEven (q * 100) : ℤ) : ℚ) ≤ ((10000 : ℤ) : ℚ) := by exact_mod_cast hu
    _ = 100 * 100 := by norm_num

theorem parseLine_shape (line : String) (i : RawInsight)
    (h : ResponseParser.parseLine line = some i) :
    (i.severity = "critical" ∨ i.severity = "warning" ∨ i.severity = "info")
    ∧ i.description = Str.trim i.description
    ∧ i.recommendation = Str.trim i.recommendation := by
  unfold ResponseParser.parseLine at h
  split_ifs at h with hp
  · rcases hms : ResponseParser.matchSeverity (Str.trim (Str.splitFirst line '|').1)
        with _ | sd
    · rw [hms] at h; exact Option.noConfusion h
    · rw [hms] at h
      injection h with h'
      subst h'
      obtain ⟨hsev, hdesc⟩ := matchSeverity_spec _ _ hms
      exact ⟨hsev, hdesc, extractRecommendation_trim_fixed _⟩
  · rcases hms : ResponseParser.matchSeverity line with _ | sd
    · rw [hms] at h; exact Option.noConfusion h
    · rw [hms] at h
      injection h with h'
      subst h'
      obtain ⟨hsev, hdesc⟩ := matchSeverity_spec _ _ hms
      exact ⟨hsev, hdesc, rfl⟩

/-! ### Claim theorems -/

/-- Claim C2.  The claim says a failure not classified as rate-limit/timeout
propagates immediately as an API error without any retry attempt.  The
code disagrees with the claim and with its own docstring: the tenacity
decorator's predicate `retry_if_exception_type((Exception,))` matches
every raised `GroqAPIException`, so a non-retryable failure such as an
invalid API key is still attempted 3 times, with backoff waits of 2s
and 4s, before the "API call failed" error surfaces.  Retryable
failures are likewise retried up to 3 attempts, and a success returns
after a single attempt. -/
theorem groq_generate_retries_nonretryable_error :
    GroqClient.isRetryableMessage "Invalid API key" = false
    ∧ (GroqClient.generate (fun _ => .failure "Invalid API key")).attempts = 3
    ∧ (GroqClient.generate (fun _ => .failure "Invalid API key")).result
        = Except.error "API call failed: Invalid API key"
    ∧ (GroqClient.generate (fun _ => .failure "Invalid API key")).waits = [2, 4]
    ∧ GroqClient.isRetryableMessage "rate limit exceeded" = true
    ∧ (GroqClient.generate (fun _ => .failure "rate limit exceeded")).attempts = 3
    ∧ (GroqClient.generate (fun _ => .failure "rate limit exceeded")).result
        = Except.error "Retryable error: rate limit exceeded"
    ∧ (GroqClient.generate (fun _ => .success "ok")).attempts = 1 :=
  ⟨by decide, by decide, rfl, by decide, by decide, by decide, rfl, by decide⟩

/-- Claim C5.  The response parser follows the two-shape severity protocol:
the spec's example line parses to the expected raw insight, matching is
case-insensitive, the second shape yields an empty recommendation, a
pipe part without the `RECOMMENDATION:` prefix is used whole, lines
matching neither shape yield no insight (and the parser is a total
function, so it never raises), and every produced insight has a
lower-cased enumerated severity and trimmed description and
recommendation. -/
theorem parser_protocol_correct :
    ResponseParser.parse "WARNING: 30% nulls in age | RECOMMENDATION: impute"
        = [{ severity := "warning", description := "30% nulls in age", recommendation := "impute" }]
    ∧ ResponseParser.parse "warning: 30% nulls in age | recommendation: impute"
        = [{ severity := "warning", description := "30% nulls in age", recommendation := "impute" }]
    ∧ ResponseParser.parse "INFO: dataset looks fine"
        = [{ severity := "info", description := "dataset looks fine", recommendation := "" }]
    ∧ ResponseParser.parse "CRITICAL: nulls in 'age' | drop them"
        = [{ severity := "critical", description := "nulls in 'age'", recommendation := "drop them" }]
    ∧ ResponseParser.parse "bogus line no colon-severity match" = []
    ∧ ResponseParser.parse "random: stuff here" = []
    ∧ ∀ line i, ResponseParser.parseLine line = some i →
        (i.severity = "critical" ∨ i.severity = "warning" ∨ i.severity = "info")
        ∧ i.description = Str.trim i.description
        ∧ i.recommendation = Str.trim i.recommendation :=
  ⟨by decide, by decide, by decide, by decide, by decide, by decide, parseLine_shape⟩

/-- Witness for C5: the universal part applied to a concrete parsed
line. -/
theorem parser_protocol_correct_witness :
    ((RawInsight.mk "warning" "x" "y").severity = "critical"
      ∨ (RawInsight.mk "warning" "x" "y").severity = "warning"
      ∨ (RawInsight.mk "warning" "x" "y").severity = "info")
    ∧ (RawInsight.mk "warning" "x" "y").description
        = Str.trim (RawInsight.mk "warning" "x" "y").description
    ∧ (RawInsight.mk "warning" "x" "y").recommendation
        = Str.trim (RawInsight.mk "warning" "x" "y").recommendation :=
  parser_protocol_correct.2.2.2.2.2.2 "WARNING: x | y"
    (RawInsight.mk "warning" "x" "y") (by decide)

/-- Claim C6.  The function `validate_response` returns false exactly for empty or
whitespace-only text, stripped length under 10, or text in which none
of the three severity keywords appears case-insensitively, and agrees
with the spec's three concrete examples. -/
theorem validate_response_correct :
    ResponseParser.validate_response "" = false
    ∧ ResponseParser.validate_response "random text" = false
    ∧ ResponseParser.validate_response "CRITICAL: x" = true
    ∧ ∀ s, ResponseParser.validate_response s = false ↔ InvalidResponse s := by
  refine ⟨by decide, by decide, by decide, ?_⟩
  intro s
  unfold ResponseParser.validate_response InvalidResponse
  by_cases hc : (decide (s = "") || decide (Str.len (Str.trim s) < 10)) = true
  · rw [if_pos hc]
    simp only [Bool.or_eq_true, decide_eq_true_eq] at hc
    constructor
    · intro _
      rcases hc with hc | hc
      · exact Or.inl (by rw [hc]; rfl)
      · exact Or.inr (Or.inl hc)
    · intro _; rfl
  · rw [if_neg hc]
    simp only [Bool.or_eq_true, decide_eq_true_eq, not_or, not_lt] at hc
    obtain ⟨hne, hlen⟩ := hc
    constructor
    · intro hval
      rw [List.any_eq_false] at hval
      exact Or.inr (Or.inr hval)
    · intro hinv
      rcases hinv with h | h | h
      · exfalso
        rw [h] at hlen
        exact absurd hlen (by decide)
      · exact absurd h (by omega)
      · rw [List.any_eq_false]
        exact h

/-- Witness for C6: the characterization applied to the empty string. -/
theorem validate_response_correct_witness : InvalidResponse "" :=
  (validate_response_correct.2.2.2 "").mp (by decide)

set_option maxRecDepth 16384 in
/-- Claim C7.  The code generator emits a column-specific pandas snippet
mentioning `df['age']` for a missing-data insight on column `age` in
Python, and returns no snippet (rather than failing — it is a total
function) for every unsupported (type, language) combination: unknown
languages, unknown insight types, the types outside the SQL and R
subsets, and Python `quality_issue` insights whose description mentions
neither correlation nor cardinality. -/
theorem code_generator_snippets_and_unsupported :
    (∃ snippet, CodeGenerator.generate
        { severity := "critical", type := "missing_data",
          description := "missing values in 'age'", recommendation := "impute",
          priority := 1, affected_columns := ["age"], impact := "High",
          code_suggestion := none } "python" = some snippet
      ∧ Str.containsStr snippet "df['age']" = true)
    ∧ (∀ (i : CategorizedInsight) (lang : String),
        lang ≠ "python" → lang ≠ "sql" → lang ≠ "r" →
        CodeGenerator.generate i lang = none)
    ∧ (∀ i : CategorizedInsight,
        i.type ∉ ["missing_data", "duplicates", "outliers", "data_type_mismatch",
          "pattern_violation", "quality_issue"] →
        CodeGenerator.generate i "python" = none)
    ∧ (∀ i : CategorizedInsight,
        i.type ∉ ["duplicates", "missing_data", "outliers"] →
        CodeGenerator.generate i "sql" = none)
    ∧ (∀ i : CategorizedInsight,
        i.type ∉ ["missing_data", "duplicates", "outliers"] →
        CodeGenerator.generate i "r" = none)
    ∧ (∀ i : CategorizedInsight, i.type = "quality_issue" →
        Str.containsStr (Str.lower i.description) "correlation" = false →
        Str.containsStr (Str.lower i.description) "cardinality" = false →
        CodeGenerator.generate i "python" = none) := by
  refine ⟨⟨CodeGenerator.pyMissingCol "age", by decide, by decide⟩, ?_, ?_, ?_, ?_, ?_⟩
  · intro i lang h1 h2 h3
    unfold CodeGenerator.generate
    rw [if_neg h1, if_neg h2, if_neg h3]
  · intro i hmem
    simp only [List.mem_cons, List.not_mem_nil, not_or, or_false] at hmem
    obtain ⟨n1, n2, n3, n4, n5, n6⟩ := hmem
    unfold CodeGenerator.generate CodeGenerator.generatePython
    rw [if_pos rfl, if_neg n1, if_neg n2, if_neg n3, if_neg n4, if_neg n5, if_neg n6]
  · intro i hmem
    simp only [List.mem_cons, List.not_mem_nil, not_or, or_false] at hmem
    obtain ⟨n1, n2, n3⟩ := hmem
    unfold CodeGenerator.generate CodeGenerator.generateSQL
    rw [if_neg (by decide : ¬("sql" : String) = "python"), if_pos rfl,
      if_neg n1, if_neg n2, if_neg n3]
  · intro i hmem
    simp only [List.mem_cons, List.not_mem_nil, not_or, or_false] at hmem
    obtain ⟨n1, n2, n3⟩ := hmem
    unfold CodeGenerator.generate CodeGenerator.generateR
    rw [if_neg (by decide : ¬("r" : String) = "python"),
      if_neg (by decide : ¬("r" : String) = "sql"), if_pos rfl,
      if_neg n1, if_neg n2, if_neg n3]
  · intro i hty hcorr hcard
    unfold CodeGenerator.generate CodeGenerator.generatePython
    rw [if_pos rfl, hty]
    rw [if_neg (by decide : ¬("quality_issue" : String) = "missing_data"),
      if_neg (by decide : ¬("quality_issue" : String) = "duplicates"),
      if_neg (by decide : ¬("quality_issue" : String) = "outliers"),
      if_neg (by decide : ¬("quality_issue" : String) = "data_type_mismatch"),
      if_neg (by decide : ¬("quality_issue" : String) = "pattern_violation"),
      if_pos rfl, hcorr, hcard]
    simp

/-- Witness for C7: an unsupported language and an unsupported
(type, language) pair at concrete inputs. -/
theorem code_generator_unsupported_witness :
    CodeGenerator.generate
      { severity := "info", type := "quality_issue", description := "d",
        recommendation := "", priority := 5, affected_columns := [],
        impact := "Low", code_suggestion := none } "ruby" = none
    ∧ CodeGenerator.generate
      { severity := "warning", type := "pattern_violation", description := "d",
        recommendation := "r", priority := 2, affected_columns := [],
        impact := "Medium", code_suggestion := none } "sql" = none :=
  ⟨code_generator_snippets_and_unsupported.2.1 _ "ruby"
      (by decide) (by decide) (by decide),
    code_generator_snippets_and_unsupported.2.2.2.1 _ (by decide)⟩

/-- Claim C9.  The function `anonymize_value` is a total function of the value and type
(so it never raises); an email value without `@` gets the fixed mask,
a phone value with fewer than four digits gets the fixed mask, and any
type other than email/phone/identifier gets the generic mask. -/
theorem anonymize_value_total_masks :
    (∀ v : String, Str.containsStr v "@" = false →
        DataAnonymizer.anonymize_value v "email" = "***@domain.com")
    ∧ (∀ v : String, (v.data.filter Char.isDigit).length < 4 →
        DataAnonymizer.anonymize_value v "phone" = "***-***-****")
    ∧ (∀ (v t : String), t ≠ "email" → t ≠ "phone" → t ≠ "identifier" →
        DataAnonymizer.anonymize_value v t = "***") := by
  refine ⟨?_, ?_, ?_⟩
  · intro v h
    unfold DataAnonymizer.anonymize_value
    rw [if_pos rfl, h]
    simp
  · intro v h
    unfold DataAnonymizer.anonymize_value
    rw [if_neg (by decide : ¬("phone" : String) = "email"), if_pos rfl,
      if_neg (by omega)]
  · intro v t h1 h2 h3
    unfold DataAnonymizer.anonymize_value
    rw [if_neg h1, if_neg h2, if_neg h3]

/-- Witness for C9: the three mask rules at concrete values. -/
theorem anonymize_value_total_masks_witness :
    DataAnonymizer.anonymize_value "nomail" "email" = "***@domain.com"
    ∧ DataAnonymizer.anonymize_value "12a" "phone" = "***-***-****"
    ∧ DataAnonymizer.anonymize_value "whatever" "numeric" = "***" :=
  ⟨anonymize_value_total_masks.1 "nomail" (by decide),
    anonymize_value_total_masks.2.1 "12a" (by decide),
    anonymize_value_total_masks.2.2 "whatever" "numeric"
      (by decide) (by decide) (by decide)⟩

/-- Claim C10.  The hit-rate computation is guarded against division by zero:
it returns 0 when there were no lookups, otherwise
`hits/(hits+misses)*100` rounded to two decimals, and the result always
lies in `[0, 100]`. -/
theorem calculate_hit_rate_guarded :
    ∀ hits misses : Nat,
      (hits + misses = 0 → CacheManager.calculate_hit_rate hits misses = 0)
      ∧ (hits + misses ≠ 0 → CacheManager.calculate_hit_rate hits misses
          = round2 ((hits : ℚ) / ((hits : ℚ) + (misses : ℚ)) * 100))
      ∧ 0 ≤ CacheManager.calculate_hit_rate hits misses
      ∧ CacheManager.calculate_hit_rate hits misses ≤ 100 := by
  intro hits misses
  by_cases h0 : hits + misses = 0
  · refine ⟨fun _ => ?_, fun hne => absurd h0 hne, ?_, ?_⟩ <;>
      simp only [CacheManager.calculate_hit_rate, if_pos h0] <;> norm_num
  · have hpos : (0 : ℚ) < ((hits + misses : Nat) : ℚ) := by
      exact_mod_cast Nat.pos_of_ne_zero h0
    have hq0 : 0 ≤ (hits : ℚ) / ((hits + misses : Nat) : ℚ) * 100 := by positivity
    have hq100 : (hits : ℚ) / ((hits + misses : Nat) : ℚ) * 100 ≤ 100 := by
      have hdiv : (hits : ℚ) / ((hits + misses : Nat) : ℚ) ≤ 1 := by
        rw [div_le_one hpos]
        exact_mod_cast Nat.le_add_right hits misses
      nlinarith
    obtain ⟨hb0, hb1⟩ := round2_bounds hq0 hq100
    refine ⟨fun he => absurd he h0, fun _ => ?_, ?_, ?_⟩
    · simp only [CacheManager.calculate_hit_rate, if_neg h0]
      congr 2
      push_cast
      ring
    · simpa only [CacheManager.calculate_hit_rate, if_neg h0] using hb0
    · simpa only [CacheManager.calculate_hit_rate, if_neg h0] using hb1

/-- Witness for C10: the guard and the formula at concrete counts. -/
theorem calculate_hit_rate_guarded_witness :
    CacheManager.calculate_hit_rate 0 0 = 0
    ∧ CacheManager.calculate_hit_rate 1 3
        = round2 ((1 : ℚ) / ((1 : ℚ) + (3 : ℚ)) * 100) :=
  ⟨(calculate_hit_rate_guarded 0 0).1 (by decide),
    (calculate_hit_rate_guarded 1 3).2.1 (by decide)⟩

theorem wellTyped_missingDataInsight (c : ColumnProfile) :
    WellTypedInsight (AIService.missingDataInsight c) := by
  refine ⟨Or.inl rfl, ?_, Or.inl rfl, ?_, ?_⟩
  · show "missing_data" ∈ _
    decide
  · show (1 : ℕ) ≤ 1
    decide
  · show (1 : ℕ) ≤ 5
    decide

theorem wellTyped_duplicatesInsight (d : ℚ) :
    WellTypedInsight (AIService.duplicatesInsight d) := by
  refine ⟨Or.inr (Or.inl rfl), ?_, Or.inl rfl, ?_, ?_⟩
  · show "duplicates" ∈ _
    decide
  · show (1 : ℕ) ≤ 2
    decide
  · show (2 : ℕ) ≤ 5
    decide

theorem wellTyped_outliersInsight (c : ColumnProfile) (pct : ℚ) :
    WellTypedInsight (AIService.outliersInsight c pct) := by
  refine ⟨Or.inr (Or.inl rfl), ?_, Or.inr (Or.inl rfl), ?_, ?_⟩
  · show "outliers" ∈ _
    decide
  · show (1 : ℕ) ≤ 2
    decide
  · show (2 : ℕ) ≤ 5
    decide

theorem wellTyped_goodQualityInsight (q : ℚ) :
    WellTypedInsight (AIService.goodQualityInsight q) := by
  refine ⟨Or.inr (Or.inr rfl), ?_, Or.inr (Or.inr rfl), ?_, ?_⟩
  · show "quality_issue" ∈ _
    decide
  · show (1 : ℕ) ≤ 5
    decide
  · show (5 : ℕ) ≤ 5
    decide

theorem wellTyped_badQualityInsight (q : ℚ) :
    WellTypedInsight (AIService.badQualityInsight q) := by
  refine ⟨Or.inr (Or.inl rfl), ?_, Or.inl rfl, ?_, ?_⟩
  · show "quality_issue" ∈ _
    decide
  · show (1 : ℕ) ≤ 2
    decide
  · show (2 : ℕ) ≤ 5
    decide

/-- Counterexample to C1.  The claim says the fallback always returns a
non-empty list "regardless of quality_score or which thresholds fire".
On a well-formed profile — one column with 10% nulls and no outliers,
2% duplicates, quality score 75 (in `[70, 85)`, so neither quality rule
fires) — no rule fires and the fallback returns the empty list. -/
theorem fallback_insights_empty_on_quiet_profile :
    AIService.generate_fallback_insights
      ⟨1000, 1, 75, [⟨"age", "numeric", "none", 10, none⟩], some ⟨2⟩⟩ "general" = [] := by
  decide

/-- Claim C1, amended.  The fallback rule engine is a total function (so it
never raises) whose every output insight is well-typed, and its output
is non-empty whenever any of its rules fires: some column has more than
50% nulls, the recorded duplicate percentage exceeds 5, some column has
more than 10% outliers, or the quality score is at least 85 or below
70.  When no rule fires — in particular for a quality score in
`[70, 85)` with no other threshold crossed — the list can be empty. -/
theorem fallback_insights_wellTyped_nonempty_when_rule_fires :
    ∀ (p : ProfileResult) (goal : String),
      (∀ i ∈ AIService.generate_fallback_insights p goal, WellTypedInsight i)
      ∧ (((∃ c ∈ p.column_profiles, 50 < c.null_percentage)
          ∨ (∃ qm, p.quality_metrics = some qm ∧ 5 < qm.duplicate_percentage)
          ∨ (∃ c ∈ p.column_profiles, ∃ pct, c.outliers = some pct ∧ 10 < pct)
          ∨ 85 ≤ p.quality_score ∨ p.quality_score < 70) →
          AIService.generate_fallback_insights p goal ≠ []) := by
  intro p goal
  constructor
  · intro i hi
    simp only [AIService.generate_fallback_insights, List.mem_map] at hi
    obtain ⟨j, hj, rfl⟩ := hi
    apply attachFallbackCode_wellTyped
    simp only [List.mem_append, List.mem_filterMap] at hj
    rcases hj with ((⟨c, -, hc⟩ | hd) | ⟨c, -, hc⟩) | hq
    · simp only [ite_eq_iff] at hc
      rcases hc with ⟨-, hc⟩ | ⟨-, hc⟩
      · injection hc with h'
        subst h'
        exact wellTyped_missingDataInsight c
      · exact Option.noConfusion hc
    · rcases hqm : p.quality_metrics with - | qm
      · rw [hqm] at hd
        simp at hd
      · rw [hqm] at hd
        simp at hd
        rcases hd with ⟨-, hd⟩
        subst hd
        exact wellTyped_duplicatesInsight _
    · rcases hco : c.outliers with - | pct
      · rw [hco] at hc
        exact Option.noConfusion hc
      · rw [hco] at hc
        simp at hc
        rcases hc with ⟨-, hc⟩
        subst hc
        exact wellTyped_outliersInsight c pct
    · by_cases hg : (85 : ℚ) ≤ p.quality_score
      · rw [if_pos hg] at hq
        rw [List.mem_singleton.mp hq]
        exact wellTyped_goodQualityInsight _
      · rw [if_neg hg] at hq
        by_cases hb : p.quality_score < 70
        · rw [if_pos hb] at hq
          rw [List.mem_singleton.mp hq]
          exact wellTyped_badQualityInsight _
        · rw [if_neg hb] at hq
          simp at hq
  · intro hcond hEmpty
    simp only [AIService.generate_fallback_insights, List.map_eq_nil_iff,
      List.append_eq_nil] at hEmpty
    obtain ⟨⟨⟨hmiss, hdup⟩, houts⟩, hqual⟩ := hEmpty
    rcases hcond with ⟨c, hc, h50⟩ | ⟨qm, hqm, h5⟩ | ⟨c, hc, pct, hpct, h10⟩ | hgood | hbad
    · rw [List.filterMap_eq_nil_iff] at hmiss
      have hnone := hmiss c hc
      rw [if_pos h50] at hnone
      exact Option.noConfusion hnone
    · rw [hqm] at hdup
      simp [h5] at hdup
    · rw [List.filterMap_eq_nil_iff] at houts
      have hnone := houts c hc
      rw [hpct] at hnone
      simp [h10] at hnone
    · rw [if_pos hgood] at hqual
      exact List.noConfusion hqual
    · have hn : ¬ (85 : ℚ) ≤ p.quality_score := by linarith
      rw [if_neg hn, if_pos hbad] at hqual
      exact List.noConfusion hqual

/-- Witness for C1: on a profile with quality score 90 the fallback is
non-empty (quality rule) and its sole insight is well-typed, and on a
profile with a 60%-null column the fallback is non-empty (null rule). -/
theorem fallback_insights_wellTyped_nonempty_witness :
    (WellTypedInsight (AIService.goodQualityInsight 90)
      ∧ AIService.generate_fallback_insights ⟨10, 1, 90, [], none⟩ "general" ≠ [])
    ∧ AIService.generate_fallback_insights
        ⟨100, 1, 80, [⟨"age", "numeric", "none", 60, none⟩], none⟩ "general" ≠ [] := by
  refine ⟨?_, (fallback_insights_wellTyped_nonempty_when_rule_fires
      ⟨100, 1, 80, [⟨"age", "numeric", "none", 60, none⟩], none⟩ "general").2
      (Or.inl ⟨⟨"age", "numeric", "none", 60, none⟩,
        List.mem_singleton_self _, by norm_num⟩)⟩
  have he : AIService.generate_fallback_insights ⟨10, 1, 90, [], none⟩ "general"
      = [AIService.goodQualityInsight 90] := by
    simp only [AIService.generate_fallback_insights]
    rw [if_pos (by norm_num : (85 : ℚ) ≤ 90)]
    simp [AIService.attachFallbackCode, AIService.goodQualityInsight]
  refine ⟨(fallback_insights_wellTyped_nonempty_when_rule_fires
      ⟨10, 1, 90, [], none⟩ "general").1 _ ?_,
    (fallback_insights_wellTyped_nonempty_when_rule_fires
      ⟨10, 1, 90, [], none⟩ "general").2
      (Or.inr (Or.inr (Or.inr (Or.inl (by norm_num)))))⟩
  rw [he]
  exact List.mem_singleton_self _

/-- Claim C3.  For every column whose null percentage exceeds 50, the
fallback output contains a critical `missing_data` insight whose
affected columns are exactly that column and whose description names
the column (quoted) together with its formatted null percentage; since
this holds for an arbitrary such column it holds for all of them
simultaneously. -/
theorem fallback_missing_data_insight_per_column :
    ∀ (p : ProfileResult) (goal : String) (c : ColumnProfile),
      c ∈ p.column_profiles → 50 < c.null_percentage →
      ∃ i ∈ AIService.generate_fallback_insights p goal,
        i.severity = "critical" ∧ i.type = "missing_data"
        ∧ i.affected_columns = [c.column_name]
        ∧ i.description = "Column '" ++ c.column_name ++ "' has "
            ++ fmtOneDecimal c.null_percentage ++ "% missing values" := by
  intro p goal c hc h50
  refine ⟨AIService.attachFallbackCode (AIService.missingDataInsight c), ?_, ?_⟩
  · simp only [AIService.generate_fallback_insights, List.mem_map]
    refine ⟨AIService.missingDataInsight c, ?_, rfl⟩
    simp only [List.mem_append, List.mem_filterMap]
    exact Or.inl (Or.inl (Or.inl ⟨c, hc, by rw [if_pos h50]⟩))
  · obtain ⟨h1, h2, h3, -, -, h6, -⟩ :=
      attachFallbackCode_fields (AIService.missingDataInsight c)
    rw [h1, h2, h3, h6]
    exact ⟨rfl, rfl, rfl, rfl⟩

/-- Witness for C3: a concrete profile whose only column has 60% nulls. -/
theorem fallback_missing_data_insight_per_column_witness :
    ∃ i ∈ AIService.generate_fallback_insights
        ⟨100, 1, 80, [⟨"age", "numeric", "none", 60, none⟩], none⟩ "general",
      i.severity = "critical" ∧ i.type = "missing_data"
      ∧ i.affected_columns = ["age"]
      ∧ i.description = "Column '" ++ "age" ++ "' has "
          ++ fmtOneDecimal (60 : ℚ) ++ "% missing values" :=
  fallback_missing_data_insight_per_column _ "general"
    ⟨"age", "numeric", "none", 60, none⟩ (List.mem_singleton_self _) (by decide)

/-- Claim C4.  The categorizer's output is sorted ascending by the pair
(priority, severity string) and every output priority lies in `[1, 5]`. -/
theorem categorize_sorted_and_priorities_in_range :
    ∀ (raws : List RawInsight) (p : ProfileResult) (goal : String),
      (InsightCategorizer.categorize raws p goal).Pairwise
        (fun a b => a.priority < b.priority
          ∨ (a.priority = b.priority ∧ a.severity ≤ b.severity))
      ∧ ∀ i ∈ InsightCategorizer.categorize raws p goal,
          1 ≤ i.priority ∧ i.priority ≤ 5 := by
  intro raws p goal
  constructor
  · have hs := List.sorted_mergeSort sortKeyLE_trans sortKeyLE_total
      (raws.map (InsightCategorizer.categorizeOne p goal))
    unfold InsightCategorizer.categorize
    refine hs.imp ?_
    intro a b hab
    simpa only [InsightCategorizer.sortKeyLE, decide_eq_true_eq] using hab
  · intro i hi
    unfold InsightCategorizer.categorize at hi
    rw [List.mem_mergeSort] at hi
    obtain ⟨r, -, rfl⟩ := List.mem_map.mp hi
    exact calculatePriority_bounds r.severity
      (InsightCategorizer.detectType r.description) goal

/-- Witness for C4: the priority bounds applied to a member of a
concrete categorization. -/
theorem categorize_sorted_and_priorities_in_range_witness :
    1 ≤ (InsightCategorizer.categorizeOne ⟨1, 0, 80, [], none⟩ "general"
        ⟨"critical", "missing values found", "fix"⟩).priority
    ∧ (InsightCategorizer.categorizeOne ⟨1, 0, 80, [], none⟩ "general"
        ⟨"critical", "missing values found", "fix"⟩).priority ≤ 5 :=
  (categorize_sorted_and_priorities_in_range
      [⟨"critical", "missing values found", "fix"⟩] ⟨1, 0, 80, [], none⟩ "general").2
    _ (by unfold InsightCategorizer.categorize
          rw [List.mem_mergeSort]
          exact List.mem_singleton_self _)

/-- Claim C8.  The categorizer emits exactly one categorized insight per raw
insight — same length, none dropped or invented — and the multiset of
(severity, description, recommendation) payloads is carried over
unchanged (the output is a permutation of the per-element translations,
because the list is re-sorted by priority). -/
theorem categorize_preserves_payload :
    ∀ (raws : List RawInsight) (p : ProfileResult) (goal : String),
      (InsightCategorizer.categorize raws p goal).length = raws.length
      ∧ ((InsightCategorizer.categorize raws p goal).map insightPayload).Perm
          (raws.map rawPayload) := by
  intro raws p goal
  constructor
  · unfold InsightCategorizer.categorize
    rw [List.length_mergeSort, List.length_map]
  · unfold InsightCategorizer.categorize
    have h1 := (List.mergeSort_perm
      (raws.map (InsightCategorizer.categorizeOne p goal))
      InsightCategorizer.sortKeyLE).map insightPayload
    rw [List.map_map] at h1
    have h2 : insightPayload ∘ InsightCategorizer.categorizeOne p goal = rawPayload := by
      funext r
      rfl
    rwa [h2] at h1

end DataNexa
